import Mathlib

/-!
Shallow embedding of the story-generation service
(`generator.py`, `wordBank.py`): the level tables, the tokenizer, the
sentence splitter, the validator `validate_story`, and the retry loop
`generate_story`.  Python strings are modelled as Lean `String`s; the
regular expressions `[A-Za-z']+` (token extraction) and `[.!?]+\s*`
(sentence splitting) are modelled by explicit character scans;
`str.lower`/`str.strip`/`\s` are modelled on the ASCII range, which is
the only range the word banks and the validator messages exercise.
Mutation of the pydantic `StoryPlan` object is modelled by returning the
possibly-amended plan, exactly as `validate_story` already does through
its third result component.  The external model boundary (the Gemini
client) is modelled as an oracle `Nat → Option StoryPlan` giving, for
each 1-based attempt number, either the parsed `response.parsed` plan or
`none` when that access raises (schema parse failure); exceptions become
explicit outcome constructors.
-/

/-- `LevelEnum` from `wordBank.py`: the difficulty levels A–H.  A
`StoryPlan`'s `level` field carries this type because pydantic rejects
any response whose `level` is outside the enum. -/
inductive Level where
  | A | B | C | D | E | F | G | H
deriving DecidableEq, Repr

/-- `LEVELS = list("ABCDEFGH")` from `wordBank.py`: the raw strings that
`generate_story` accepts as its `level` argument. -/
def LEVELS : List String := ["A", "B", "C", "D", "E", "F", "G", "H"]

/-- `WORD_BANK` from `wordBank.py`.  Python stores a `Set[str]` per level;
only membership is ever used, so a duplicate-free list is a faithful
model. -/
def WORD_BANK : Level → List String
  | .A => ["boy", "girl", "dog", "cat", "see", "run", "happy", "today"]
  | .B => ["boy", "girl", "dog", "cat", "see", "run", "happy", "today",
           "school", "friend"]
  | .C => ["boy", "girl", "dog", "cat", "see", "run", "happy", "today",
           "school", "friend", "house", "play"]
  | .D => ["boy", "girl", "dog", "cat", "see", "run", "happy", "today",
           "school", "friend", "house", "play", "yesterday", "park"]
  | .E => ["boy", "girl", "dog", "cat", "see", "run", "happy", "today",
           "school", "friend", "house", "play", "yesterday", "park",
           "finish", "want"]
  | .F => ["boy", "girl", "dog", "cat", "see", "run", "happy", "today",
           "school", "friend", "house", "play", "yesterday", "park",
           "finish", "want", "ask", "help"]
  | .G => ["boy", "girl", "dog", "cat", "see", "run", "happy", "today",
           "school", "friend", "house", "play", "yesterday", "park",
           "finish", "want", "ask", "help", "because"]
  | .H => ["boy", "girl", "dog", "cat", "see", "run", "happy", "today",
           "school", "friend", "house", "play", "yesterday", "park",
           "finish", "want", "ask", "help", "because", "before", "after"]

/-- One row of `LEVEL_POLICY`: the two difficulty caps. -/
structure DifficultyPolicy where
  max_tokens : Nat
  max_sentences : Nat
deriving DecidableEq, Repr

/-- `LEVEL_POLICY` from `wordBank.py`. -/
def LEVEL_POLICY : Level → DifficultyPolicy
  | .A => ⟨40, 3⟩
  | .B => ⟨50, 4⟩
  | .C => ⟨60, 5⟩
  | .D => ⟨70, 5⟩
  | .E => ⟨80, 6⟩
  | .F => ⟨90, 6⟩
  | .G => ⟨100, 7⟩
  | .H => ⟨110, 7⟩

/-- The `StoryPlan` pydantic model from `generator.py`.  `sentences` is
`List[str] | None = None`, hence an `Option`. -/
structure StoryPlan where
  level : Level
  used_words : List String
  story_text : String
  sentences : Option (List String)
deriving DecidableEq, Repr

/-- A character matched by the token pattern `[A-Za-z']+` (`TOKEN_RE`). -/
def isTokenChar (c : Char) : Bool :=
  ('A' ≤ c && c ≤ 'Z') || ('a' ≤ c && c ≤ 'z') || c = '\''

/-- ASCII case folding of one character, modelling `str.lower` on the
characters the token pattern can produce. -/
def lowerChar (c : Char) : Char :=
  if 'A' ≤ c && c ≤ 'Z' then Char.ofNat (c.toNat + 32) else c

/-- `normalize_word(w) = w.lower()` from `generator.py` (ASCII range). -/
def normalize_word (w : String) : String :=
  String.mk (w.data.map lowerChar)

/-- Scan for `TOKEN_RE.finditer`: `acc` holds the (reversed) characters of
the token run currently being read.  A maximal run of token characters
becomes one lowercased token, matching
`[normalize_word(m.group(0)) for m in TOKEN_RE.finditer(text)]`. -/
def tokenizeAux : List Char → List Char → List String
  | [], [] => []
  | [], acc => [String.mk (acc.reverse.map lowerChar)]
  | c :: cs, acc =>
    if isTokenChar c then
      tokenizeAux cs (c :: acc)
    else
      match acc with
      | [] => tokenizeAux cs []
      | _ => String.mk (acc.reverse.map lowerChar) :: tokenizeAux cs []

/-- `tokenize_text` from `generator.py`. -/
def tokenize_text (text : String) : List String :=
  tokenizeAux text.data []

/-- ASCII whitespace, modelling Python's `\s` class and `str.strip` on the
ASCII range. -/
def isSpaceChar (c : Char) : Bool :=
  c = ' ' || c = '\t' || c = '\n' || c = '\r' || c = '\x0b' || c = '\x0c'

/-- A sentence-terminal character from the split pattern `[.!?]+\s*`. -/
def isSentencePunct (c : Char) : Bool :=
  c = '.' || c = '!' || c = '?'

/-- `text.strip()` (ASCII whitespace). -/
def pyStrip (l : List Char) : List Char :=
  ((l.dropWhile isSpaceChar).reverse.dropWhile isSpaceChar).reverse

/-- Scanner state for `re.split(r"[.!?]+\s*", ...)`: reading fragment
text, inside the punctuation run of a delimiter, or inside the optional
whitespace tail of a delimiter. -/
inductive SplitState where
  | normal | punct | space
deriving DecidableEq, Repr

/-- One left-to-right pass implementing `re.split(r"[.!?]+\s*", s)`:
each non-overlapping leftmost match of the pattern — a maximal run of
`.!?` followed by a maximal run of whitespace — separates two fragments,
with an empty trailing fragment after a delimiter that ends the text. -/
def splitGo : List Char → List Char → SplitState → List String
  | [], acc, .normal => [String.mk acc.reverse]
  | [], _, .punct => [""]
  | [], _, .space => [""]
  | c :: cs, acc, .normal =>
    if isSentencePunct c then String.mk acc.reverse :: splitGo cs [] .punct
    else splitGo cs (c :: acc) .normal
  | c :: cs, acc, .punct =>
    if isSentencePunct c then splitGo cs acc .punct
    else if isSpaceChar c then splitGo cs acc .space
    else splitGo cs [c] .normal
  | c :: cs, acc, .space =>
    if isSpaceChar c then splitGo cs acc .space
    else if isSentencePunct c then "" :: splitGo cs acc .punct
    else splitGo cs [c] .normal

/-- `split_sentences` from `generator.py`:
`parts = re.split(r"[.!?]+\s*", text.strip()); [p for p in parts if p]`. -/
def split_sentences (text : String) : List String :=
  (splitGo (pyStrip text.data) [] .normal).filter (fun p => p ≠ "")

/-- The `uniq`/`seen` loop of `validate_story`: unique tokens in
first-appearance order.  Python keeps `seen` as a set; a list with the
same membership is a faithful model. -/
def dedupFirstAux : List String → List String → List String
  | [], _ => []
  | t :: ts, seen =>
    if t ∈ seen then dedupFirstAux ts seen
    else t :: dedupFirstAux ts (t :: seen)

/-- Unique tokens of a list in first-appearance order. -/
def dedupFirst (ts : List String) : List String :=
  dedupFirstAux ts []

/-- The fixed message of the derivation-consistency violation. -/
def consistencyMsg : String :=
  "used_words does not match unique token order from story_text"

/-- `validate_story` from `generator.py`.  The imperative
`errors.append` loops become `List.foldl` over the same elements in the
same order; the in-place `plan.sentences = sents` backfill (guarded by
Python truthiness `if not plan.sentences`) becomes the returned third
component. -/
def validate_story (plan : StoryPlan) : Bool × List String × StoryPlan :=
  let allowed := WORD_BANK plan.level
  let errors : List String := []
  let errors := plan.used_words.foldl
    (fun es w => if normalize_word w ∈ allowed then es
                 else es ++ ["Out-of-bank used_words item: " ++ w]) errors
  let toks := tokenize_text plan.story_text
  let errors := toks.foldl
    (fun es t => if t ∈ allowed then es
                 else es ++ ["OOV token in story_text: " ++ t]) errors
  let policy := LEVEL_POLICY plan.level
  let errors := if toks.length > policy.max_tokens then
      errors ++ ["Too many tokens: " ++ toString toks.length ++ " > " ++
                 toString policy.max_tokens]
    else errors
  let sents := split_sentences plan.story_text
  let errors := if sents.length > policy.max_sentences then
      errors ++ ["Too many sentences: " ++ toString sents.length ++ " > " ++
                 toString policy.max_sentences]
    else errors
  let uniq := dedupFirst toks
  let errors := if plan.used_words.map normalize_word ≠ uniq then
      errors ++ [consistencyMsg]
    else errors
  let plan := match plan.sentences with
    | none => { plan with sentences := some sents }
    | some [] => { plan with sentences := some sents }
    | some (_ :: _) => plan
  (errors.length == 0, errors, plan)

/-- Check 1 of the validator, collected: one violation per `used_words`
entry whose normal form is outside the level's bank, in `used_words`
order. -/
def usedWordsViolations (plan : StoryPlan) : List String :=
  (plan.used_words.filter
    (fun w => normalize_word w ∉ WORD_BANK plan.level)).map
    (fun w => "Out-of-bank used_words item: " ++ w)

/-- Check 2 of the validator, collected: one violation per `story_text`
token outside the level's bank, in token order. -/
def oovTokenViolations (plan : StoryPlan) : List String :=
  ((tokenize_text plan.story_text).filter
    (fun t => t ∉ WORD_BANK plan.level)).map
    (fun t => "OOV token in story_text: " ++ t)

/-- Check 3 of the validator, collected: the token-count cap violation,
when the cap is exceeded. -/
def tokenCapViolations (plan : StoryPlan) : List String :=
  let toks := tokenize_text plan.story_text
  let policy := LEVEL_POLICY plan.level
  if toks.length > policy.max_tokens then
    ["Too many tokens: " ++ toString toks.length ++ " > " ++
     toString policy.max_tokens]
  else []

/-- Check 4 of the validator, collected: the sentence-count cap
violation, when the cap is exceeded. -/
def sentenceCapViolations (plan : StoryPlan) : List String :=
  let sents := split_sentences plan.story_text
  let policy := LEVEL_POLICY plan.level
  if sents.length > policy.max_sentences then
    ["Too many sentences: " ++ toString sents.length ++ " > " ++
     toString policy.max_sentences]
  else []

/-- Check 5 of the validator, collected: the single derivation-consistency
violation, when normalized `used_words` differs from the unique tokens of
`story_text` in first-appearance order. -/
def consistencyViolations (plan : StoryPlan) : List String :=
  if plan.used_words.map normalize_word ≠
      dedupFirst (tokenize_text plan.story_text) then [consistencyMsg]
  else []

/-- All five checks' violations in the validator's collection order. -/
def allViolations (plan : StoryPlan) : List String :=
  usedWordsViolations plan ++ oovTokenViolations plan ++
  tokenCapViolations plan ++ sentenceCapViolations plan ++
  consistencyViolations plan

/-- Python truthiness of the `sentences` field: `not plan.sentences` is
true for `None` and for the empty list. -/
def sentencesMissing : Option (List String) → Bool
  | none => true
  | some [] => true
  | some (_ :: _) => false

/-- The validator's final conditional mutation, as a function on plans. -/
def backfillSentences (plan : StoryPlan) : StoryPlan :=
  if sentencesMissing plan.sentences then
    { plan with sentences := some (split_sentences plan.story_text) }
  else plan

/-- Result of one `generate_story` call.  `success` carries the plan and
the 1-based attempt count; `invalidLevel` models the
`ValueError("Invalid level; must be A–H")`; `exhausted` models the
terminal `RuntimeError`, carrying the `last_errors` list joined into its
message. -/
inductive GenOutcome where
  | success (plan : StoryPlan) (attempts : Nat)
  | invalidLevel
  | exhausted (last_errors : List String)
deriving DecidableEq, Repr

/-- The `last_errors` value recorded when `response.parsed` raises. -/
def schemaParseError : String :=
  "Schema parse error: returned output was not valid JSON per schema"

/-- The tightening instruction appended after a schema parse failure. -/
def schemaTighten : String :=
  "Previous output violated the JSON schema. Return strict JSON only matching fields: level, used_words, story_text."

/-- The tightening instruction appended after a validation failure,
enumerating every violation verbatim. -/
def constraintTighten (errors : List String) : String :=
  "Previous output violated constraints:\n- " ++
  String.intercalate "\n- " errors ++
  "\nRegenerate strictly: use ONLY allowed words; stay under token/sentence caps; keep ASL style."

/-- The `while attempt < max_retries` loop of `generate_story`.  `fuel` is
the number of loop iterations still allowed (`max_retries - attempt`),
`attempt` the number of attempts already made, `tighten_msgs` and
`last_errors` the loop-carried locals.  The oracle stands for the model
boundary: `oracle a` is the parsed plan of attempt `a`, or `none` when
`response.parsed` raises.  The second component of the result counts the
model invocations performed: one per loop iteration entered, exactly as
each iteration performs one `client.models.generate_content` call. -/
def gen_loop (oracle : Nat → Option StoryPlan) :
    Nat → Nat → List String → List String → GenOutcome × Nat
  | 0, _, _, last_errors => (GenOutcome.exhausted last_errors, 0)
  | fuel + 1, attempt, tighten_msgs, _ =>
    match oracle (attempt + 1) with
    | none =>
      let r := gen_loop oracle fuel (attempt + 1)
        (tighten_msgs ++ [schemaTighten]) [schemaParseError]
      (r.1, r.2 + 1)
    | some plan =>
      match validate_story plan with
      | (ok, errors, plan2) =>
        if ok then (GenOutcome.success plan2 (attempt + 1), 1)
        else
          let r := gen_loop oracle fuel (attempt + 1)
            (tighten_msgs ++ [constraintTighten errors]) errors
          (r.1, r.2 + 1)

/-- `generate_story` from `generator.py`, with the model boundary as an
oracle.  `max_retries` is a Python `int`, hence `Int`; the loop runs
`max_retries.toNat` iterations because `while attempt < max_retries`
starting from `attempt = 0` runs `max(max_retries, 0)` times.  The
returned `Nat` counts model invocations. -/
def generate_story (oracle : Nat → Option StoryPlan) (level : String)
    (max_retries : Int) : GenOutcome × Nat :=
  if level ∈ LEVELS then
    gen_loop oracle max_retries.toNat 0 [] []
  else (GenOutcome.invalidLevel, 0)

/-- Whether an attempt's model response counts as invalid: the parse
raised, or the parsed plan fails validation. -/
def attemptInvalid : Option StoryPlan → Prop
  | none => True
  | some plan => (validate_story plan).1 = false

/-- The `last_errors` an invalid attempt records. -/
def attemptErrors : Option StoryPlan → List String
  | none => [schemaParseError]
  | some plan => (validate_story plan).2.1

theorem foldl_collect {α : Type} (p : α → Prop) [DecidablePred p]
    (f : α → String) (l : List α) (acc : List String) :
    l.foldl (fun es x => if p x then es else es ++ [f x]) acc
      = acc ++ (l.filter (fun x => decide ¬ p x)).map f := by
  induction l generalizing acc with
  | nil => simp
  | cons x xs ih =>
    by_cases h : p x <;> simp [List.foldl_cons, h, ih, List.filter_cons]

theorem append_ite (l m : List String) (c : Prop) [Decidable c] :
    (if c then l ++ m else l) = l ++ (if c then m else []) := by
  by_cases h : c <;> simp [h]

/-- The validator decomposes into the five collected check results and
the conditional sentences backfill. -/
theorem validate_story_eq (plan : StoryPlan) :
    validate_story plan =
      ((allViolations plan).length == 0, allViolations plan,
       backfillSentences plan) := by
  have hb : (match plan.sentences with
      | none => { plan with sentences := some (split_sentences plan.story_text) }
      | some [] => { plan with sentences := some (split_sentences plan.story_text) }
      | some (_ :: _) => plan) = backfillSentences plan := by
    unfold backfillSentences sentencesMissing
    cases plan.sentences with
    | none => simp
    | some s => cases s <;> simp
  simp only [validate_story]
  rw [foldl_collect (fun w => normalize_word w ∈ WORD_BANK plan.level),
      foldl_collect (fun t => t ∈ WORD_BANK plan.level),
      append_ite, append_ite, append_ite]
  rw [hb]
  simp only [List.nil_append, List.append_assoc]
  unfold allViolations usedWordsViolations oovTokenViolations
    tokenCapViolations sentenceCapViolations consistencyViolations
  simp only [List.append_assoc]

theorem usedWordsViolations_eq_nil (plan : StoryPlan) :
    usedWordsViolations plan = [] ↔
      ∀ w ∈ plan.used_words, normalize_word w ∈ WORD_BANK plan.level := by
  simp [usedWordsViolations, List.map_eq_nil_iff, List.filter_eq_nil_iff]

theorem oovTokenViolations_eq_nil (plan : StoryPlan) :
    oovTokenViolations plan = [] ↔
      ∀ t ∈ tokenize_text plan.story_text, t ∈ WORD_BANK plan.level := by
  simp [oovTokenViolations, List.map_eq_nil_iff, List.filter_eq_nil_iff]

theorem tokenCapViolations_eq_nil (plan : StoryPlan) :
    tokenCapViolations plan = [] ↔
      (tokenize_text plan.story_text).length ≤
        (LEVEL_POLICY plan.level).max_tokens := by
  by_cases h : (tokenize_text plan.story_text).length >
      (LEVEL_POLICY plan.level).max_tokens
  · have h2 : ¬ (tokenize_text plan.story_text).length ≤
        (LEVEL_POLICY plan.level).max_tokens := by omega
    simp [tokenCapViolations, h, h2]
  · have h2 : (tokenize_text plan.story_text).length ≤
        (LEVEL_POLICY plan.level).max_tokens := by omega
    simp [tokenCapViolations, h, h2]

theorem sentenceCapViolations_eq_nil (plan : StoryPlan) :
    sentenceCapViolations plan = [] ↔
      (split_sentences plan.story_text).length ≤
        (LEVEL_POLICY plan.level).max_sentences := by
  by_cases h : (split_sentences plan.story_text).length >
      (LEVEL_POLICY plan.level).max_sentences
  · have h2 : ¬ (split_sentences plan.story_text).length ≤
        (LEVEL_POLICY plan.level).max_sentences := by omega
    simp [sentenceCapViolations, h, h2]
  · have h2 : (split_sentences plan.story_text).length ≤
        (LEVEL_POLICY plan.level).max_sentences := by omega
    simp [sentenceCapViolations, h, h2]

theorem head_data_append (a w : String) {c : Char}
    (h : a.data.head? = some c) : (a ++ w).data.head? = some c := by
  rw [String.data_append]
  rw [List.head?_append_of_ne_nil]
  · exact h
  · intro hnil
    rw [hnil] at h
    cases h

theorem string_ne_of_data_head {a b : String} {c1 c2 : Char}
    (h1 : a.data.head? = some c1) (h2 : b.data.head? = some c2)
    (hne : c1 ≠ c2) : a ≠ b := by
  intro h
  rw [h, h2] at h1
  exact hne (Option.some.inj h1).symm

theorem consistencyMsg_not_mem_usedWords (plan : StoryPlan) :
    consistencyMsg ∉ usedWordsViolations plan := by
  simp only [usedWordsViolations, List.mem_map]
  rintro ⟨w, -, hw⟩
  have h1 : ("Out-of-bank used_words item: " ++ w).data.head? = some 'O' :=
    head_data_append _ _ rfl
  have h2 : consistencyMsg.data.head? = some 'u' := rfl
  exact string_ne_of_data_head h1 h2 (by decide) hw

theorem consistencyMsg_not_mem_oov (plan : StoryPlan) :
    consistencyMsg ∉ oovTokenViolations plan := by
  simp only [oovTokenViolations, List.mem_map]
  rintro ⟨t, -, ht⟩
  have h1 : ("OOV token in story_text: " ++ t).data.head? = some 'O' :=
    head_data_append _ _ rfl
  have h2 : consistencyMsg.data.head? = some 'u' := rfl
  exact string_ne_of_data_head h1 h2 (by decide) ht

theorem consistencyMsg_not_mem_tokenCap (plan : StoryPlan) :
    consistencyMsg ∉ tokenCapViolations plan := by
  simp only [tokenCapViolations]
  split
  · intro hmem
    have h := List.mem_singleton.mp hmem
    have h1 : ("Too many tokens: " ++
        toString (tokenize_text plan.story_text).length ++ " > " ++
        toString (LEVEL_POLICY plan.level).max_tokens).data.head?
        = some 'T' :=
      head_data_append _ _ (head_data_append _ _ (head_data_append _ _ rfl))
    have h2 : consistencyMsg.data.head? = some 'u' := rfl
    exact string_ne_of_data_head h1 h2 (by decide) h.symm
  · simp

theorem consistencyMsg_not_mem_sentenceCap (plan : StoryPlan) :
    consistencyMsg ∉ sentenceCapViolations plan := by
  simp only [sentenceCapViolations]
  split
  · intro hmem
    have h := List.mem_singleton.mp hmem
    have h1 : ("Too many sentences: " ++
        toString (split_sentences plan.story_text).length ++ " > " ++
        toString (LEVEL_POLICY plan.level).max_sentences).data.head?
        = some 'T' :=
      head_data_append _ _ (head_data_append _ _ (head_data_append _ _ rfl))
    have h2 : consistencyMsg.data.head? = some 'u' := rfl
    exact string_ne_of_data_head h1 h2 (by decide) h.symm
  · simp

theorem consistencyViolations_count (plan : StoryPlan) :
    (consistencyViolations plan).count consistencyMsg =
      if plan.used_words.map normalize_word =
          dedupFirst (tokenize_text plan.story_text) then 0 else 1 := by
  by_cases h : plan.used_words.map normalize_word =
      dedupFirst (tokenize_text plan.story_text) <;>
    simp [consistencyViolations, h]

theorem allViolations_count (plan : StoryPlan) :
    (allViolations plan).count consistencyMsg =
      if plan.used_words.map normalize_word =
          dedupFirst (tokenize_text plan.story_text) then 0 else 1 := by
  have c1 : (usedWordsViolations plan).count consistencyMsg = 0 :=
    List.count_eq_zero.mpr (consistencyMsg_not_mem_usedWords plan)
  have c2 : (oovTokenViolations plan).count consistencyMsg = 0 :=
    List.count_eq_zero.mpr (consistencyMsg_not_mem_oov plan)
  have c3 : (tokenCapViolations plan).count consistencyMsg = 0 :=
    List.count_eq_zero.mpr (consistencyMsg_not_mem_tokenCap plan)
  have c4 : (sentenceCapViolations plan).count consistencyMsg = 0 :=
    List.count_eq_zero.mpr (consistencyMsg_not_mem_sentenceCap plan)
  rw [allViolations, List.count_append, List.count_append, List.count_append,
      List.count_append, c1, c2, c3, c4, consistencyViolations_count]
  simp

/-- C2: the validator reports the derivation-consistency check as
satisfied exactly when the normalized `used_words` list equals, element
for element, the unique tokens of `story_text` in first-appearance
order; any mismatch contributes exactly one consistency violation to the
error list (count 1), never one per mismatched element. -/
theorem consistency_check_single_violation (plan : StoryPlan) :
    (consistencyMsg ∉ (validate_story plan).2.1 ↔
      plan.used_words.map normalize_word =
        dedupFirst (tokenize_text plan.story_text)) ∧
    (validate_story plan).2.1.count consistencyMsg =
      (if plan.used_words.map normalize_word =
          dedupFirst (tokenize_text plan.story_text) then 0 else 1) := by
  rw [validate_story_eq]
  dsimp only
  refine ⟨?_, allViolations_count plan⟩
  rw [← List.count_eq_zero, allViolations_count]
  by_cases h : plan.used_words.map normalize_word =
      dedupFirst (tokenize_text plan.story_text) <;> simp [h]

/-- C1: any plan the validator accepts satisfies vocabulary closure for
both `story_text` tokens and normalized `used_words` entries, and both
difficulty caps for its level. -/
theorem valid_plan_closure_and_caps (plan : StoryPlan)
    (h : (validate_story plan).1 = true) :
    (∀ t ∈ tokenize_text plan.story_text, t ∈ WORD_BANK plan.level) ∧
    (∀ w ∈ plan.used_words, normalize_word w ∈ WORD_BANK plan.level) ∧
    (tokenize_text plan.story_text).length ≤
      (LEVEL_POLICY plan.level).max_tokens ∧
    (split_sentences plan.story_text).length ≤
      (LEVEL_POLICY plan.level).max_sentences := by
  rw [validate_story_eq] at h
  dsimp only at h
  have hlen : (allViolations plan).length = 0 := by simpa using h
  have hnil : allViolations plan = [] := List.length_eq_zero.mp hlen
  rw [allViolations] at hnil
  simp only [List.append_eq_nil] at hnil
  obtain ⟨⟨⟨⟨h1, h2⟩, h3⟩, h4⟩, -⟩ := hnil
  exact ⟨(oovTokenViolations_eq_nil plan).mp h2,
         (usedWordsViolations_eq_nil plan).mp h1,
         (tokenCapViolations_eq_nil plan).mp h3,
         (sentenceCapViolations_eq_nil plan).mp h4⟩

/-- C7: the validator runs all five checks without short-circuiting and
returns the violations in the fixed order — `used_words` closure
violations (one per offending entry, in `used_words` order), then
`story_text` token closure violations (one per offending token, in token
order), then the token-count cap violation, then the sentence-count cap
violation, then the derivation-consistency violation — and `isValid` is
true exactly when this list is empty. -/
theorem validator_order_and_validity (plan : StoryPlan) :
    (validate_story plan).2.1 =
      usedWordsViolations plan ++ oovTokenViolations plan ++
      tokenCapViolations plan ++ sentenceCapViolations plan ++
      consistencyViolations plan ∧
    ((validate_story plan).1 = true ↔ (validate_story plan).2.1 = []) := by
  rw [validate_story_eq]
  dsimp only
  refine ⟨rfl, ?_⟩
  constructor
  · intro h
    exact List.length_eq_zero.mp (by simpa using h)
  · intro h
    simp [h]

/-- C8: when a plan's `sentences` field is `None` or empty (Python
truthiness), the validator sets it to `split_sentences(story_text)` —
unconditionally, whether validation succeeds or fails, since the
statement places no validity hypothesis — and a plan whose `sentences`
is already non-empty is returned unchanged. -/
theorem sentences_backfill (plan : StoryPlan) :
    (sentencesMissing plan.sentences = true →
      (validate_story plan).2.2 =
        { plan with sentences := some (split_sentences plan.story_text) }) ∧
    (sentencesMissing plan.sentences = false →
      (validate_story plan).2.2 = plan) := by
  rw [validate_story_eq]
  dsimp only
  constructor <;> intro h <;> simp [backfillSentences, h]

/-- A concrete plan that passes validation: level A, in-bank words,
`used_words` in first-appearance token order, under both caps. -/
def pGood : StoryPlan :=
  { level := Level.A
    used_words := ["today", "boy", "run", "happy"]
    story_text := "Today boy run. Boy happy."
    sentences := none }

/-- A concrete plan that fails validation: `park` is not in bank A and
`used_words` does not match the token derivation. -/
def pBad : StoryPlan :=
  { level := Level.A
    used_words := []
    story_text := "park."
    sentences := none }

/-- Witness for C1 at `pGood`. -/
theorem valid_plan_closure_and_caps_witness :
    (validate_story pGood).1 = true ∧
    ((∀ t ∈ tokenize_text pGood.story_text, t ∈ WORD_BANK pGood.level) ∧
     (∀ w ∈ pGood.used_words, normalize_word w ∈ WORD_BANK pGood.level) ∧
     (tokenize_text pGood.story_text).length ≤
       (LEVEL_POLICY pGood.level).max_tokens ∧
     (split_sentences pGood.story_text).length ≤
       (LEVEL_POLICY pGood.level).max_sentences) :=
  ⟨by decide, valid_plan_closure_and_caps pGood (by decide)⟩

/-- Witness for C8 at `pGood` (whose `sentences` is `None`). -/
theorem sentences_backfill_witness :
    sentencesMissing pGood.sentences = true ∧
    (validate_story pGood).2.2 =
      { pGood with sentences := some (split_sentences pGood.story_text) } :=
  ⟨rfl, (sentences_backfill pGood).1 rfl⟩

/-- C9 counterexample: `pBad` fails validation, yet the validator does
mutate it — the returned plan differs from the input because the
`sentences` backfill also runs on the failure path. -/
theorem validator_mutates_on_failure :
    (validate_story pBad).1 = false ∧ (validate_story pBad).2.2 ≠ pBad := by
  constructor
  · decide
  · decide

/-- C9 as amended: on the failure path the validator leaves `level`,
`used_words` and `story_text` unchanged, but still performs the
`sentences` backfill when that field is absent or empty; the plan is
mutated on failure exactly as on success. -/
theorem failure_path_fields (plan : StoryPlan)
    (_h : (validate_story plan).1 = false) :
    (validate_story plan).2.2.level = plan.level ∧
    (validate_story plan).2.2.used_words = plan.used_words ∧
    (validate_story plan).2.2.story_text = plan.story_text ∧
    (validate_story plan).2.2.sentences =
      (if sentencesMissing plan.sentences then
        some (split_sentences plan.story_text) else plan.sentences) := by
  rw [validate_story_eq]
  dsimp only
  by_cases hs : sentencesMissing plan.sentences <;>
    simp [backfillSentences, hs]

/-- Witness for the amended C9 at `pBad`. -/
theorem failure_path_fields_witness :
    (validate_story pBad).2.2.level = pBad.level ∧
    (validate_story pBad).2.2.used_words = pBad.used_words ∧
    (validate_story pBad).2.2.story_text = pBad.story_text ∧
    (validate_story pBad).2.2.sentences =
      (if sentencesMissing pBad.sentences then
        some (split_sentences pBad.story_text) else pBad.sentences) :=
  failure_path_fields pBad (by decide)

theorem gen_loop_parse_step (oracle : Nat → Option StoryPlan)
    (fuel attempt : Nat) (tighten_msgs last_errors : List String)
    (h : oracle (attempt + 1) = none) :
    gen_loop oracle (fuel + 1) attempt tighten_msgs last_errors =
      ((gen_loop oracle fuel (attempt + 1)
          (tighten_msgs ++ [schemaTighten]) [schemaParseError]).1,
       (gen_loop oracle fuel (attempt + 1)
          (tighten_msgs ++ [schemaTighten]) [schemaParseError]).2 + 1) := by
  simp [gen_loop, h]

theorem gen_loop_invalid_step (oracle : Nat → Option StoryPlan)
    (fuel attempt : Nat) (tighten_msgs last_errors : List String)
    (plan : StoryPlan) (ho : oracle (attempt + 1) = some plan)
    (hbad : (validate_story plan).1 = false) :
    gen_loop oracle (fuel + 1) attempt tighten_msgs last_errors =
      ((gen_loop oracle fuel (attempt + 1)
          (tighten_msgs ++ [constraintTighten (validate_story plan).2.1])
          (validate_story plan).2.1).1,
       (gen_loop oracle fuel (attempt + 1)
          (tighten_msgs ++ [constraintTighten (validate_story plan).2.1])
          (validate_story plan).2.1).2 + 1) := by
  simp [gen_loop, ho, hbad]

/-- C3: a schema parse failure on an attempt is recovered locally: the
attempt consumes one model invocation, records the single-error outcome
`[schemaParseError]` as `last_errors`, appends the JSON-tightening
instruction, and the loop continues with the next attempt — no
exceptional outcome is produced by the attempt itself. -/
theorem parse_failure_recovered (oracle : Nat → Option StoryPlan)
    (fuel attempt : Nat) (tighten_msgs last_errors : List String)
    (h : oracle (attempt + 1) = none) :
    gen_loop oracle (fuel + 1) attempt tighten_msgs last_errors =
      ((gen_loop oracle fuel (attempt + 1)
          (tighten_msgs ++ [schemaTighten]) [schemaParseError]).1,
       (gen_loop oracle fuel (attempt + 1)
          (tighten_msgs ++ [schemaTighten]) [schemaParseError]).2 + 1) :=
  gen_loop_parse_step oracle fuel attempt tighten_msgs last_errors h

/-- Witness for C3: with an oracle that always fails to parse, one loop
step from two remaining attempts recurses into the remaining budget. -/
theorem parse_failure_recovered_witness :
    gen_loop (fun _ => none) 2 0 [] [] =
      ((gen_loop (fun _ => none) 1 1 ([] ++ [schemaTighten])
          [schemaParseError]).1,
       (gen_loop (fun _ => none) 1 1 ([] ++ [schemaTighten])
          [schemaParseError]).2 + 1) :=
  parse_failure_recovered (fun _ => none) 1 0 [] [] rfl

theorem gen_loop_exhausted (oracle : Nat → Option StoryPlan) :
    ∀ (fuel attempt : Nat) (tm le : List String),
    (∀ j, 1 ≤ j → j ≤ fuel + 1 → attemptInvalid (oracle (attempt + j))) →
    gen_loop oracle (fuel + 1) attempt tm le =
      (GenOutcome.exhausted (attemptErrors (oracle (attempt + (fuel + 1)))),
       fuel + 1) := by
  intro fuel
  induction fuel with
  | zero =>
    intro attempt tm le hinv
    cases ho : oracle (attempt + 1) with
    | none => simp [gen_loop, ho, attemptErrors]
    | some plan =>
      have h1 : (validate_story plan).1 = false := by
        have := hinv 1 (by omega) (by omega)
        rwa [ho] at this
      simp [gen_loop, ho, attemptErrors, h1]
  | succ f ihf =>
    intro attempt tm le hinv
    have hstep : ∀ j, 1 ≤ j → j ≤ f + 1 →
        attemptInvalid (oracle ((attempt + 1) + j)) := by
      intro j hj1 hj2
      have := hinv (j + 1) (by omega) (by omega)
      rwa [show attempt + (j + 1) = attempt + 1 + j by omega] at this
    have hidx : attempt + 1 + (f + 1) = attempt + (f + 1 + 1) := by omega
    cases ho : oracle (attempt + 1) with
    | none =>
      have ihr := ihf (attempt + 1) (tm ++ [schemaTighten])
        [schemaParseError] hstep
      rw [hidx] at ihr
      rw [gen_loop_parse_step oracle (f + 1) attempt tm le ho, ihr]
    | some plan =>
      have h1 : (validate_story plan).1 = false := by
        have := hinv 1 (by omega) (by omega)
        rwa [ho] at this
      have ihr := ihf (attempt + 1)
        (tm ++ [constraintTighten (validate_story plan).2.1])
        (validate_story plan).2.1 hstep
      rw [hidx] at ihr
      rw [gen_loop_invalid_step oracle (f + 1) attempt tm le plan ho h1, ihr]

/-- C4: with a valid level and every one of the `max_retries` attempts
invalid (parse failure or validation failure), `generate_story` performs
exactly `max_retries` model invocations and fails with the
exhausted-retries outcome carrying the most recent attempt's violation
list (or the parse-failure marker). -/
theorem exhausted_after_max_retries (oracle : Nat → Option StoryPlan)
    (level : String) (max_retries : Int)
    (hlevel : level ∈ LEVELS) (hpos : 1 ≤ max_retries)
    (hinv : ∀ k, 1 ≤ k → k ≤ max_retries.toNat → attemptInvalid (oracle k)) :
    generate_story oracle level max_retries =
      (GenOutcome.exhausted (attemptErrors (oracle max_retries.toNat)),
       max_retries.toNat) := by
  rw [generate_story, if_pos hlevel]
  obtain ⟨f, hf⟩ : ∃ f, max_retries.toNat = f + 1 :=
    ⟨max_retries.toNat - 1, by omega⟩
  rw [hf]
  have := gen_loop_exhausted oracle f 0 [] [] (by
    intro j hj1 hj2
    have := hinv j hj1 (by omega)
    simpa using this)
  simpa using this

/-- Witness for C4: an oracle whose every response is unparseable, level
A, budget 2: two invocations, then exhaustion with the parse marker. -/
theorem exhausted_after_max_retries_witness :
    generate_story (fun _ => none) "A" 2 =
      (GenOutcome.exhausted [schemaParseError], 2) :=
  exhausted_after_max_retries (fun _ => none) "A" 2 (by decide) (by decide)
    (fun _ _ _ => True.intro)

theorem gen_loop_success (oracle : Nat → Option StoryPlan)
    (plan : StoryPlan) :
    ∀ (fuel attempt k : Nat) (tm le : List String),
    attempt < k → k ≤ attempt + fuel →
    (∀ j, attempt < j → j < k → attemptInvalid (oracle j)) →
    oracle k = some plan → (validate_story plan).1 = true →
    gen_loop oracle fuel attempt tm le =
      (GenOutcome.success (validate_story plan).2.2 k, k - attempt) := by
  intro fuel
  induction fuel with
  | zero =>
    intro attempt k tm le h1 h2 _ _ _
    exfalso
    omega
  | succ f ih =>
    intro attempt k tm le hk1 hk2 hprev hok hvalid
    by_cases he : k = attempt + 1
    · subst he
      simp [gen_loop, hok, hvalid]
    · have hk1' : attempt + 1 < k := by omega
      cases ho : oracle (attempt + 1) with
      | none =>
        have ihr := ih (attempt + 1) k (tm ++ [schemaTighten])
          [schemaParseError] hk1' (by omega)
          (fun j hj1 hj2 => hprev j (by omega) hj2) hok hvalid
        simp [gen_loop, ho, ihr, Prod.ext_iff]
        omega
      | some plan2 =>
        have hinv2 : (validate_story plan2).1 = false := by
          have := hprev (attempt + 1) (by omega) hk1'
          rwa [ho] at this
        have ihr := ih (attempt + 1) k
          (tm ++ [constraintTighten (validate_story plan2).2.1])
          (validate_story plan2).2.1 hk1' (by omega)
          (fun j hj1 hj2 => hprev j (by omega) hj2) hok hvalid
        simp [gen_loop, ho, hinv2, ihr, Prod.ext_iff]
        omega

/-- C5: with a valid level, if attempts 1..k-1 are invalid and attempt k
(within the budget) parses to a plan the validator accepts, then
`generate_story` returns that (validated) plan with attempt count k
after exactly k model invocations — success terminates the loop. -/
theorem early_success (oracle : Nat → Option StoryPlan) (level : String)
    (max_retries : Int) (k : Nat) (plan : StoryPlan)
    (hlevel : level ∈ LEVELS) (hk1 : 1 ≤ k) (hk2 : k ≤ max_retries.toNat)
    (hprev : ∀ j, 1 ≤ j → j < k → attemptInvalid (oracle j))
    (hok : oracle k = some plan) (hvalid : (validate_story plan).1 = true) :
    generate_story oracle level max_retries =
      (GenOutcome.success (validate_story plan).2.2 k, k) := by
  rw [generate_story, if_pos hlevel]
  have := gen_loop_success oracle plan max_retries.toNat 0 k [] []
    (by omega) (by omega) (fun j hj1 hj2 => hprev j (by omega) hj2)
    hok hvalid
  simpa using this

/-- Witness for C5: an oracle that returns the valid plan `pGood` on the
first attempt succeeds immediately with one invocation. -/
theorem early_success_witness :
    generate_story (fun _ => some pGood) "A" 3 =
      (GenOutcome.success (validate_story pGood).2.2 1, 1) :=
  early_success (fun _ => some pGood) "A" 3 1 pGood (by decide) (by decide)
    (by decide) (fun j hj1 hj2 => absurd hj2 (by omega)) rfl (by decide)

/-- C6: a level outside `LEVELS` fails with the invalid-level outcome and
zero model invocations, for every oracle and retry budget. -/
theorem invalid_level_fail_fast (oracle : Nat → Option StoryPlan)
    (level : String) (max_retries : Int) (h : level ∉ LEVELS) :
    generate_story oracle level max_retries =
      (GenOutcome.invalidLevel, 0) := by
  rw [generate_story, if_neg h]

/-- Witness for C6 at level `"Z"`. -/
theorem invalid_level_fail_fast_witness :
    generate_story (fun _ => none) "Z" 3 = (GenOutcome.invalidLevel, 0) :=
  invalid_level_fail_fast (fun _ => none) "Z" 3 (by decide)

/-- C10: with a valid level and `max_retries ≤ 0`, the loop body never
runs: zero model invocations, and the exhausted-retries failure carries
an empty violation list (the `RuntimeError` message is built from an
empty `last_errors`), rather than a plan or an invalid-level failure. -/
theorem nonpositive_retries_exhausts_empty (oracle : Nat → Option StoryPlan)
    (level : String) (max_retries : Int)
    (hlevel : level ∈ LEVELS) (hnp : max_retries ≤ 0) :
    generate_story oracle level max_retries =
      (GenOutcome.exhausted [], 0) := by
  rw [generate_story, if_pos hlevel]
  have h0 : max_retries.toNat = 0 := by omega
  rw [h0]
  rfl

/-- Witness for C10 at level `"A"`, budget 0. -/
theorem nonpositive_retries_exhausts_empty_witness :
    generate_story (fun _ => none) "A" 0 = (GenOutcome.exhausted [], 0) :=
  nonpositive_retries_exhausts_empty (fun _ => none) "A" 0 (by decide)
    (by decide)
